import Mathlib

/-!
# Verification of the GCP onboarding relay function

Shallow embedding of the outbound delivery core of the
`archmate-gcp-creation-onboarding` repository:

* `src/GCP/function/services/cognito.js` — OAuth2 client-credentials token
  acquisition and base64/plaintext secret resolution;
* `src/GCP/function/services/aws-requests.js` — endpoint resolution, request
  header construction and the POST pipeline with retry-on-401 and
  alternate-path-fallback-on-404;
* `src/GCP/function/handlers/cloudFunction.js` — the HTTP handler wrapping the
  pipeline;
* `src/unnamed/part_001` — a sibling variant of `sendToAwsEndpoint`.

JavaScript strings are modelled as Lean `String`s; byte buffers as `List Nat`
with every element below 256.  Network effects are modelled by a script of
outcomes consumed in program order; each embedded operation additionally
returns the trace of outgoing requests it produced, so that theorems can speak
about which calls were made, with which headers, and in which order.

The repository has a `constants` module (`src/GCP/function/constants`) whose
source is not included under `src/`; the values it exports
(`AWS_ENDPOINT`, `AWS_ENDPOINT_PATH`, `COGNITO_*`) enter the model as explicit
parameters, and where a claim depends on their values they are modelled from
the specification (see the individual theorems).
-/

/-- JavaScript `String.prototype.trim`: remove leading and trailing
whitespace.  Modelled over the character list with `Char.isWhitespace`. -/
def jsTrim (s : String) : String :=
  ⟨((s.data.dropWhile Char.isWhitespace).reverse.dropWhile Char.isWhitespace).reverse⟩

/-- JavaScript truthiness for an optional string: `undefined`, `null` and the
empty string are falsy. -/
def strTruthy : Option String → Option String
  | some s => if s = "" then none else some s
  | none => none

/-- `s.startsWith(pre)`, computed on the character lists. -/
def strStartsWith (s pre : String) : Bool :=
  pre.data.isPrefixOf s.data

/-- Split a character list at every occurrence of `sep`
(JavaScript `String.prototype.split` with a one-character separator). -/
def splitCharList (sep : Char) (l : List Char) : List (List Char) :=
  l.foldr
    (fun c acc =>
      match acc with
      | [] => [[c]]
      | g :: gs => if c = sep then [] :: g :: gs else (c :: g) :: gs)
    [[]]

/-! ## Base64 (Node `Buffer` semantics)

`Buffer.from(value, 'base64')` ignores characters outside the base64
alphabet (including padding `=`) and decodes the remaining sextets, dropping
a final incomplete group of one sextet.  `Buffer.from(bytes).toString('base64')`
produces canonical base64 with padding.  The `utf8` string/byte conversions
that the JavaScript code interposes are the identity on well-formed data and
are collapsed in this model (see `tryDecodeBase64`). -/

/-- The character at index `n` of the base64 alphabet
`A–Z a–z 0–9 + /` (total: out-of-range indices map into the alphabet as the
if-chain falls through, which matches no reachable use). -/
def toB64Char (n : Nat) : Char :=
  if n < 26 then Char.ofNat (65 + n)
  else if n < 52 then Char.ofNat (97 + (n - 26))
  else if n < 62 then Char.ofNat (48 + (n - 52))
  else if n = 62 then '+'
  else '/'

/-- Index of a character in the base64 alphabet, `none` for characters
outside it (`=` included). -/
def b64Val (c : Char) : Option Nat :=
  if 'A' ≤ c ∧ c ≤ 'Z' then some (c.toNat - 65)
  else if 'a' ≤ c ∧ c ≤ 'z' then some (c.toNat - 97 + 26)
  else if '0' ≤ c ∧ c ≤ '9' then some (c.toNat - 48 + 52)
  else if c = '+' then some 62
  else if c = '/' then some 63
  else none

/-- A character of the 64-character base64 alphabet (padding `=` excluded). -/
def isB64Char (c : Char) : Bool :=
  (b64Val c).isSome

/-- Canonical base64 encoding of a byte sequence, processing three bytes into
four characters with `=` padding for a final group of one or two bytes. -/
def encode3 : List Nat → List Char
  | [] => []
  | [b1] =>
      [toB64Char (b1 / 4), toB64Char (b1 % 4 * 16), '=', '=']
  | [b1, b2] =>
      [toB64Char (b1 / 4), toB64Char (b1 % 4 * 16 + b2 / 16),
       toB64Char (b2 % 16 * 4), '=']
  | b1 :: b2 :: b3 :: rest =>
      toB64Char (b1 / 4) :: toB64Char (b1 % 4 * 16 + b2 / 16) ::
      toB64Char (b2 % 16 * 4 + b3 / 64) :: toB64Char (b3 % 64) :: encode3 rest

/-- Canonical base64 encoding as a string (`Buffer.from(bytes).toString('base64')`). -/
def b64encode (bs : List Nat) : String :=
  ⟨encode3 bs⟩

/-- Reassemble bytes from a list of sextet values: groups of four sextets give
three bytes, a final group of three gives two bytes, of two gives one byte,
and a lone trailing sextet is dropped (Node behaviour). -/
def decodeSextets : List Nat → List Nat
  | s1 :: s2 :: s3 :: s4 :: rest =>
      (s1 * 4 + s2 / 16) :: (s2 % 16 * 16 + s3 / 4) :: (s3 % 4 * 64 + s4) ::
      decodeSextets rest
  | [s1, s2, s3] => [s1 * 4 + s2 / 16, s2 % 16 * 16 + s3 / 4]
  | [s1, s2] => [s1 * 4 + s2 / 16]
  | _ => []

/-- Node-style lenient base64 decode of a string: characters outside the
alphabet (including `=`) are ignored, the remaining sextets are reassembled. -/
def nodeB64Decode (s : String) : List Nat :=
  decodeSextets (s.data.filterMap b64Val)

/-- Strip all trailing `=` characters (the `replace(/=+$/, '')` in
`cognito.js:148-149`). -/
def stripTrailingEq (l : List Char) : List Char :=
  (l.reverse.dropWhile (fun c => c = '=')).reverse

/-- `tryDecodeBase64` (`cognito.js:140-159`): decode, reject an empty
decoding, re-encode and compare with the original modulo trailing padding.
The byte/string `utf8` conversions of the JavaScript code are collapsed:
`decoded` here is the byte sequence whose utf8 decoding JavaScript holds,
and the re-encoding is applied to those bytes directly (the two agree
whenever the decoded bytes are well-formed utf8, in particular on every
input reachable in the theorems below).  The JavaScript `try`/`catch` is
dead for base64 input and has no counterpart here. -/
def tryDecodeBase64 (value : String) : Option (List Nat) :=
  let decoded := nodeB64Decode value
  if decoded = [] then none
  else
    let reencoded := stripTrailingEq (encode3 decoded)
    let normalizedOriginal := stripTrailingEq value.data
    if reencoded = normalizedOriginal then some decoded else none

/-- Outcome of `resolveClientSecret`, keeping the two branches apart:
`.empty` is the JavaScript `null` return for falsy input, `.decoded bs`
is the base64 branch (JavaScript returns the utf8 decoding of `bs`),
`.plain t` is the fall-through branch returning the trimmed input. -/
inductive SecretResolution where
  | empty : SecretResolution
  | decoded : List Nat → SecretResolution
  | plain : String → SecretResolution
deriving DecidableEq, Repr

/-- `resolveClientSecret` (`cognito.js:123-138`), branch-tagged. -/
def resolveClientSecretR (s : String) : SecretResolution :=
  if s = "" then .empty
  else
    match tryDecodeBase64 (jsTrim s) with
    | some bs => .decoded bs
    | none => .plain (jsTrim s)

/-- Render resolved bytes as a string; faithful for ASCII bytes, and only the
truthiness and ASCII cases of this rendering are ever observed. -/
def bytesToStr (bs : List Nat) : String :=
  ⟨bs.map Char.ofNat⟩

/-- `resolveClientSecret` as the string-valued function the caller sees
(`none` = the JavaScript `null`). -/
def resolveClientSecret (s : String) : Option String :=
  match resolveClientSecretR s with
  | .empty => none
  | .decoded bs => some (bytesToStr bs)
  | .plain t => some t

/-! ## Token acquisition (`cognito.js:7-118`) -/

/-- A successful token grant as returned by `getCognitoAccessToken`
(the diagnostics-only `claims` field, never read by any caller logic,
is not modelled). -/
structure CognitoAuth where
  token : String
  tokenType : String
  expiresIn : Option Nat
  grantedScope : Option String
deriving DecidableEq, Repr

/-- Body of a token-endpoint 2xx response (`none` fields = absent). -/
structure TokenData where
  accessToken : Option String
  tokenType : Option String
  expiresIn : Option Nat
  scope : Option String
deriving DecidableEq, Repr

/-- An axios error from the token exchange: transport message, optional HTTP
status, and the provider error fields of the response body when present. -/
structure TokenErr where
  message : String
  status : Option Nat
  errorDescription : Option String
  errorField : Option String
deriving DecidableEq, Repr

/-- Scripted outcome of the single `axios.post` to the token endpoint. -/
inductive TokenOutcome where
  | ok : Option TokenData → TokenOutcome
  | err : TokenErr → TokenOutcome
deriving DecidableEq, Repr

/-- Effective configuration reaching `getCognitoAccessToken` after the
`process.env.X || CONSTANT` fallbacks of `cognito.js:8-11` (the `constants`
module is not under `src/`); `""` models a missing value. -/
structure CognitoConfig where
  tokenUrl : String
  clientId : String
  scope : String
  secretFromEnv : String
deriving DecidableEq, Repr

/-- The list of missing configuration fields (`cognito.js:21-24`),
in push order. -/
def cognitoMissingFields (cfg : CognitoConfig) : List String :=
  (if cfg.tokenUrl = "" then ["COGNITO_TOKEN_URL"] else []) ++
  (if cfg.clientId = "" then ["COGNITO_CLIENT_ID"] else []) ++
  (if cfg.secretFromEnv = "" then ["COGNITO_CLIENT_SECRET_B64"] else [])

instance exceptDecEq {ε α : Type} [DecidableEq ε] [DecidableEq α] :
    DecidableEq (Except ε α) := fun x y =>
  match x, y with
  | .ok a, .ok b =>
      if h : a = b then .isTrue (by rw [h])
      else .isFalse (by intro hc; cases hc; exact h rfl)
  | .error a, .error b =>
      if h : a = b then .isTrue (by rw [h])
      else .isFalse (by intro hc; cases hc; exact h rfl)
  | .ok _, .error _ => .isFalse (by intro hc; cases hc)
  | .error _, .ok _ => .isFalse (by intro hc; cases hc)

/-- Result of one `getCognitoAccessToken` call, together with the number of
network calls made to the token endpoint. -/
structure CognitoRun where
  result : Except String CognitoAuth
  tokenRequests : Nat
deriving DecidableEq, Repr

/-- `getCognitoAccessToken` (`cognito.js:7-118`).  The catch block wraps any
error raised inside the `try` into
`Unable to obtain Cognito access token: <message>`, preferring the provider
`error_description` / `error` response fields; the internal
`missing access_token` throw is itself caught and wrapped the same way. -/
def getCognitoAccessToken (cfg : CognitoConfig) (outcome : TokenOutcome) :
    CognitoRun :=
  if cfg.tokenUrl = "" ∨ cfg.clientId = "" ∨ cfg.secretFromEnv = "" then
    { result := .error ("Missing Cognito OAuth configuration: " ++
        String.intercalate ", " (cognitoMissingFields cfg)),
      tokenRequests := 0 }
  else
    let clientSecret := (resolveClientSecret cfg.secretFromEnv).getD ""
    if clientSecret = "" then
      { result := .error
          "Unable to resolve Cognito client secret from Terraform-provided value.",
        tokenRequests := 0 }
    else
      match outcome with
      | .err e =>
          let msg := ((strTruthy e.errorDescription).orElse
            (fun _ => strTruthy e.errorField)).getD e.message
          { result := .error ("Unable to obtain Cognito access token: " ++ msg),
            tokenRequests := 1 }
      | .ok none =>
          { result := .error
              "Unable to obtain Cognito access token: Cognito token response missing access_token",
            tokenRequests := 1 }
      | .ok (some data) =>
          match data.accessToken with
          | none =>
              { result := .error
                  "Unable to obtain Cognito access token: Cognito token response missing access_token",
                tokenRequests := 1 }
          | some tok =>
              if tok = "" then
                { result := .error
                    "Unable to obtain Cognito access token: Cognito token response missing access_token",
                  tokenRequests := 1 }
              else
                { result := .ok
                    { token := tok,
                      tokenType := data.tokenType.getD "Bearer",
                      expiresIn := data.expiresIn,
                      grantedScope := (strTruthy data.scope).orElse
                        (fun _ => if cfg.scope = "" then none else some cfg.scope) },
                  tokenRequests := 1 }

/-! ## Endpoint resolution (`aws-requests.js:35-69, 153-162`)

URL parsing models the WHATWG `new URL` constructor restricted to what the
code consumes — `protocol`, `hostname`, `port` of `http(s)` URLs without
userinfo, IPv6 hosts or case normalization; inputs outside that fragment
parse to `none` and take the regex fallback, exactly as a throwing
constructor does in the source. -/

/-- Characters that end the host[:port] section of an URL. -/
def isHostEnd (c : Char) : Bool :=
  c = '/' || c = '?' || c = '#'

/-- Split a character list at the first `':'`, returning the part before it
and, when a `':'` exists, the part after it. -/
def splitAtColon : List Char → List Char × Option (List Char)
  | [] => ([], none)
  | c :: rest =>
      if c = ':' then ([], some rest)
      else
        let r := splitAtColon rest
        (c :: r.1, r.2)

/-- The `protocol`, `hostname` and `port` fields of a parsed URL. -/
structure UrlParts where
  protocol : String
  hostname : String
  port : String
deriving DecidableEq, Repr

/-- Parse an `http(s)` URL into protocol, hostname and port (`new URL`);
default ports are normalized away as the URL class does. -/
def urlParse (u : String) : Option UrlParts :=
  let go : String → List Char → Option UrlParts := fun protocol rest =>
    let hostPort := rest.takeWhile (fun c => !(isHostEnd c))
    match splitAtColon hostPort with
    | (host, none) =>
        if host = [] then none else some ⟨protocol, ⟨host⟩, ""⟩
    | (host, some port) =>
        if host = [] then none
        else if port.all Char.isDigit then
          let ps : String := ⟨port⟩
          let ps := if (protocol = "https:" ∧ ps = "443") ∨
              (protocol = "http:" ∧ ps = "80") then "" else ps
          some ⟨protocol, ⟨host⟩, ps⟩
        else none
  if strStartsWith u "https://" then go "https:" (u.data.drop 8)
  else if strStartsWith u "http://" then go "http:" (u.data.drop 7)
  else none

/-- Reassemble `protocol//hostname[:port]` (the template shared by
`aws-requests.js:40` and `aws-requests.js:158`). -/
def originOf (p : UrlParts) : String :=
  p.protocol ++ "//" ++ p.hostname ++ (if p.port ≠ "" then ":" ++ p.port else "")

/-- The regex fallback of `aws-requests.js:42,160`:
match of an initial segment against `https?://[^/]+`. -/
def regexOrigin (u : String) : Option String :=
  if strStartsWith u "https://" then
    let tail := (u.data.drop 8).takeWhile (fun c => !(c = '/'))
    if tail = [] then none else some ("https://" ++ (⟨tail⟩ : String))
  else if strStartsWith u "http://" then
    let tail := (u.data.drop 7).takeWhile (fun c => !(c = '/'))
    if tail = [] then none else some ("http://" ++ (⟨tail⟩ : String))
  else none

/-- `buildEndpointWithPath` (`aws-requests.js:35-48`). -/
def buildEndpointWithPath (baseUrl desiredPath : String) : String :=
  let normalizedPath :=
    if strStartsWith desiredPath "/" then desiredPath else "/" ++ desiredPath
  match urlParse baseUrl with
  | some p => originOf p ++ normalizedPath
  | none =>
      match regexOrigin baseUrl with
      | some m => m ++ normalizedPath
      | none => baseUrl ++ normalizedPath

/-- Base extraction for the 404 fallback (`aws-requests.js:155-162`):
URL origin, else regex match, else `split('/').slice(0,3).join('/')`. -/
def extractAwsBase (awsEndpoint : String) : String :=
  match urlParse awsEndpoint with
  | some p => originOf p
  | none =>
      match regexOrigin awsEndpoint with
      | some m => m
      | none => String.intercalate "/"
          (((splitCharList '/' awsEndpoint.data).map
            (fun l => (⟨l⟩ : String))).take 3)

/-- `awsEndpoint.includes('/', 8)` (`aws-requests.js:60`). -/
def containsSlashFrom8 (s : String) : Bool :=
  (s.data.drop 8).contains '/'

/-- The environment variables read by the pipeline (`""` = unset). -/
structure AwsEnv where
  awsEndpoint : String
  awsEndpointPath : String
  awsApiKey : String
deriving DecidableEq, Repr

/-- The two endpoint values exported by the `constants` module, whose source
is not under `src/`; they stay parameters of the model. -/
structure AwsConsts where
  awsEndpointConst : String
  awsEndpointPathConst : String
deriving DecidableEq, Repr

/-- Endpoint resolution of `sendToAwsEndpoint` (`aws-requests.js:55-68`):
`endpointBase = env.AWS_ENDPOINT || constants.AWS_ENDPOINT`,
`endpointPath = (env.AWS_ENDPOINT_PATH || constants.AWS_ENDPOINT_PATH || '').trim()`,
then override / keep-if-it-has-a-path / append `constants.AWS_ENDPOINT_PATH`. -/
def resolveAwsEndpoint (k : AwsConsts) (env : AwsEnv) : String :=
  let endpointBase :=
    if env.awsEndpoint ≠ "" then env.awsEndpoint else k.awsEndpointConst
  let endpointPath := jsTrim
    (if env.awsEndpointPath ≠ "" then env.awsEndpointPath
     else if k.awsEndpointPathConst ≠ "" then k.awsEndpointPathConst else "")
  let urlHasPath := containsSlashFrom8 endpointBase
  if endpointPath ≠ "" then buildEndpointWithPath endpointBase endpointPath
  else if urlHasPath = false then endpointBase ++ k.awsEndpointPathConst
  else endpointBase

/-! ## Request headers and the delivery pipeline (`aws-requests.js:10-30, 53-193`) -/

/-- The header set built by `getAwsRequestHeaders` (`aws-requests.js:10-30`). -/
structure AwsHeaders where
  contentType : String
  authToken : Option String
  authorization : Option String
  xApiKey : Option String
deriving DecidableEq, Repr

/-- `getAwsRequestHeaders`: content type always; `auth-token` (raw) and
`Authorization` (`<tokenType> <token>`, type defaulting to `Bearer`) exactly
when a truthy token is present; `x-api-key` when the API key is set. -/
def getAwsRequestHeaders (apiKey : String) (auth : Option CognitoAuth) :
    AwsHeaders :=
  let base : AwsHeaders := ⟨"application/json", none, none, none⟩
  let withAuth :=
    match auth with
    | some a =>
        if a.token ≠ "" then
          { base with
            authToken := some a.token,
            authorization := some
              ((if a.tokenType ≠ "" then a.tokenType else "Bearer") ++ " " ++ a.token) }
        else base
    | none => base
  if apiKey ≠ "" then { withAuth with xApiKey := some apiKey } else withAuth

/-- Outcome of one `axios.post` to the delivery endpoint: an HTTP response
of some status, or a transport-level failure carrying no response. -/
inductive PostOutcome where
  | res : Nat → String → PostOutcome
  | netErr : String → PostOutcome
deriving DecidableEq, Repr

/-- axios resolves exactly on 2xx (default `validateStatus`). -/
def is2xx : PostOutcome → Bool
  | .res s _ => 200 ≤ s && s < 300
  | .netErr _ => false

def statusOf : PostOutcome → Nat
  | .res s _ => s
  | .netErr _ => 0

def statusTextOf : PostOutcome → String
  | .res _ st => st
  | .netErr _ => ""

/-- What the pipeline reads off a thrown axios error: `message`,
`response?.status`, `response?.statusText`. -/
structure JsError where
  message : String
  status : Option Nat
  statusText : String
deriving DecidableEq, Repr

/-- The axios error corresponding to a non-2xx outcome. -/
def outcomeToError : PostOutcome → JsError
  | .res s st => ⟨"Request failed with status code " ++ toString s, some s, st⟩
  | .netErr m => ⟨m, none, ""⟩

/-- The fields of `buildErrorDetails` (`aws-requests.js:198-243`) that carry
error provenance and token diagnostics (response-header and sent-header echo
fields, pure copies of the same inputs, are not separately modelled). -/
structure ErrorDetails where
  message : String
  endpoint : String
  statusCode : Option Nat
  statusText : String
  cognitoTokenObtained : Bool
  tokenPreview : String
deriving DecidableEq, Repr

/-- `buildErrorDetails` (`aws-requests.js:198-243`), on the modelled fields. -/
def buildErrorDetails (e : JsError) (endpoint : String)
    (auth : Option CognitoAuth) : ErrorDetails :=
  { message := if e.message ≠ "" then e.message else "Failed to send to AWS endpoint",
    endpoint := endpoint,
    statusCode := e.status,
    statusText := e.statusText,
    cognitoTokenObtained := match auth with
      | some a => a.token ≠ ""
      | none => false,
    tokenPreview := match auth with
      | some a =>
          if a.token ≠ "" then (⟨a.token.data.take 30⟩ : String) ++ "..." else "NO TOKEN"
      | none => "NO TOKEN" }

/-- Scripted outcome of the forced token refresh
(`getCognitoAccessToken({forceRefresh:true})`). -/
inductive RefreshOutcome where
  | ok : CognitoAuth → RefreshOutcome
  | err : JsError → RefreshOutcome
deriving DecidableEq, Repr

/-- External-world script for one pipeline invocation: the outcomes of the
successive delivery POSTs, in the order the pipeline issues them, and the
outcome of the (at most one) token refresh. -/
structure Script where
  posts : List PostOutcome
  refresh : RefreshOutcome
deriving DecidableEq, Repr

/-- Outcome consumed when the script runs dry (never reached in the
theorems, which always script enough outcomes). -/
def defaultOutcome : PostOutcome := .netErr "no scripted outcome"

/-- One outgoing POST as the trace records it. -/
structure AwsRequest where
  endpoint : String
  headers : AwsHeaders
deriving DecidableEq, Repr

/-- The value `sendToAwsEndpoint` resolves with. -/
inductive SendResult where
  | success : Nat → String → String → Bool → SendResult
  | failure : ErrorDetails → JsError → String → SendResult
deriving DecidableEq, Repr

/-- A full pipeline run: its result (`.error` = a thrown exception), the
trace of delivery POSTs, and how many forced token refreshes were made. -/
structure SendRun where
  result : Except String SendResult
  requests : List AwsRequest
  refreshCalls : Nat
deriving DecidableEq, Repr

/-- The fixed fallback paths (`aws-requests.js:79`). -/
def alternativePaths : List String :=
  ["/api", "/data", "/webhook", "/post", "/submit"]

/-- The `for` loop over alternates (`aws-requests.js:164-179`): one POST per
path with headers built from the current token; the first 2xx outcome
short-circuits, errors of failing alternates are dropped. -/
def tryAlternates (apiKey : String) (auth : CognitoAuth) (baseUrl : String) :
    List String → List PostOutcome →
      Option (Nat × String × String) × List AwsRequest
  | [], _ => (none, [])
  | p :: ps, outcomes =>
      let altEndpoint := baseUrl ++ p
      let req : AwsRequest := ⟨altEndpoint, getAwsRequestHeaders apiKey (some auth)⟩
      let o := outcomes.headD defaultOutcome
      if is2xx o then
        (some (statusOf o, statusTextOf o, altEndpoint), [req])
      else
        let r := tryAlternates apiKey auth baseUrl ps outcomes.tail
        (r.1, req :: r.2)

/-- `sendToAwsEndpoint` (`aws-requests.js:53-193`).  The local `postToAws`
closure captures `cognitoAuth`, so every request — the 401 retry included —
carries headers built from the original grant; the `refreshedAuth` returned
by the forced refresh (`aws-requests.js:133`) is never used, which this
model preserves. -/
def sendToAwsEndpoint (k : AwsConsts) (env : AwsEnv)
    (auth : Option CognitoAuth) (script : Script) : SendRun :=
  let awsEndpoint := resolveAwsEndpoint k env
  match auth with
  | none =>
      ⟨.error "Cannot send to AWS: Cognito token was not obtained successfully.", [], 0⟩
  | some cognitoAuth =>
    if cognitoAuth.token = "" then
      ⟨.error "Cannot send to AWS: Cognito token was not obtained successfully.", [], 0⟩
    else
      let hdr := getAwsRequestHeaders env.awsApiKey (some cognitoAuth)
      let o1 := script.posts.headD defaultOutcome
      let req1 : AwsRequest := ⟨awsEndpoint, hdr⟩
      if is2xx o1 then
        ⟨.ok (.success (statusOf o1) (statusTextOf o1) awsEndpoint false), [req1], 0⟩
      else
        let awsError := outcomeToError o1
        let cont : SendRun ⊕ (JsError × List AwsRequest × Nat × Nat) :=
          if awsError.status = some 401 then
            match script.refresh with
            | .ok _refreshedAuth =>
                let o2 := script.posts.getD 1 defaultOutcome
                let req2 : AwsRequest := ⟨awsEndpoint, hdr⟩
                if is2xx o2 then
                  .inl ⟨.ok (.success (statusOf o2) (statusTextOf o2) awsEndpoint true),
                    [req1, req2], 1⟩
                else
                  .inr (outcomeToError o2, [req1, req2], 1, 2)
            | .err e => .inr (e, [req1], 1, 1)
          else .inr (awsError, [req1], 0, 1)
        match cont with
        | .inl run => run
        | .inr (errorAfterRetry, reqs, rc, altStart) =>
            if errorAfterRetry.status = some 404 ∧ env.awsEndpointPath = "" then
              let baseUrl := extractAwsBase awsEndpoint
              let alt := tryAlternates env.awsApiKey cognitoAuth baseUrl
                alternativePaths (script.posts.drop altStart)
              match alt.1 with
              | some (s, st, ep) =>
                  ⟨.ok (.success s st ep false), reqs ++ alt.2, rc⟩
              | none =>
                  ⟨.ok (.failure
                      (buildErrorDetails errorAfterRetry awsEndpoint (some cognitoAuth))
                      errorAfterRetry awsEndpoint),
                    reqs ++ alt.2, rc⟩
            else
              ⟨.ok (.failure
                  (buildErrorDetails errorAfterRetry awsEndpoint (some cognitoAuth))
                  errorAfterRetry awsEndpoint),
                reqs, rc⟩

/-! ## The `src/unnamed/part_001` variant of `sendToAwsEndpoint` -/

/-- Result type of the `part_001` variant, whose failure object carries the
raw last error (`part_001:61`) and no `buildErrorDetails` record. -/
inductive SendResultV1 where
  | success : Nat → String → String → Bool → SendResultV1
  | failure : JsError → String → SendResultV1
deriving DecidableEq, Repr

/-- A run of the `part_001` variant. -/
structure SendRunV1 where
  result : Except String SendResultV1
  requests : List AwsRequest
  refreshCalls : Nat
deriving DecidableEq, Repr

/-- `sendToAwsEndpoint` of `src/unnamed/part_001:6-63`: same resolution shape
with the constants only, literal default path, no API key header, no 404
fallback — and a 401 retry that rebuilds headers from the refreshed grant
(`part_001:44-50`). -/
def sendToAwsEndpointV1 (kEndpoint kPath : String)
    (auth : Option CognitoAuth) (script : Script) : SendRunV1 :=
  let endpointPath := jsTrim kPath
  let urlHasPath := containsSlashFrom8 kEndpoint
  let awsEndpoint :=
    if endpointPath ≠ "" then buildEndpointWithPath kEndpoint endpointPath
    else if urlHasPath = false then kEndpoint ++ "/dev/run-assessment"
    else kEndpoint
  match auth with
  | none =>
      ⟨.error "Cannot send to AWS: Cognito token was not obtained successfully.", [], 0⟩
  | some cognitoAuth =>
    if cognitoAuth.token = "" then
      ⟨.error "Cannot send to AWS: Cognito token was not obtained successfully.", [], 0⟩
    else
      let hdr := getAwsRequestHeaders "" (some cognitoAuth)
      let o1 := script.posts.headD defaultOutcome
      let req1 : AwsRequest := ⟨awsEndpoint, hdr⟩
      if is2xx o1 then
        ⟨.ok (.success (statusOf o1) (statusTextOf o1) awsEndpoint false), [req1], 0⟩
      else
        let awsError := outcomeToError o1
        if awsError.status = some 401 then
          match script.refresh with
          | .ok refreshedAuth =>
              let retryHeaders := getAwsRequestHeaders "" (some refreshedAuth)
              let o2 := script.posts.getD 1 defaultOutcome
              let req2 : AwsRequest := ⟨awsEndpoint, retryHeaders⟩
              if is2xx o2 then
                ⟨.ok (.success (statusOf o2) (statusTextOf o2) awsEndpoint true),
                  [req1, req2], 1⟩
              else
                ⟨.ok (.failure (outcomeToError o2) awsEndpoint), [req1, req2], 1⟩
          | .err e => ⟨.ok (.failure e awsEndpoint), [req1], 1⟩
        else
          ⟨.ok (.failure awsError awsEndpoint), [req1], 0⟩

/-- Number of delivery POSTs the primary phase of `sendToAwsEndpoint` makes:
one, plus the retry when the first POST yields 401 and the forced refresh
succeeds (mirrors `aws-requests.js:117-147`). -/
def primaryPosts (script : Script) : Nat :=
  if (outcomeToError (script.posts.headD defaultOutcome)).status = some 401 then
    match script.refresh with
    | .ok _ => 2
    | .err _ => 1
  else 1

/-- The error the primary phase of `sendToAwsEndpoint` ends with when it does
not succeed: the first-POST error; after a 401, the refresh error or the
retry error (`errorAfterRetry` of `aws-requests.js:125-149`).  When the
primary phase succeeds this value is never consulted. -/
def primaryPhaseError (script : Script) : JsError :=
  let awsError := outcomeToError (script.posts.headD defaultOutcome)
  if awsError.status = some 401 then
    match script.refresh with
    | .ok _ =>
        let o2 := script.posts.getD 1 defaultOutcome
        if is2xx o2 then awsError else outcomeToError o2
    | .err e => e
  else awsError

/-! ## The HTTP handler (`handlers/cloudFunction.js:26-327`) -/

/-- The modelled fields of a handler response body. -/
structure HandlerBody where
  success : Bool
  message : String
  hasError : Bool
  hasCognitoError : Bool
deriving DecidableEq, Repr

/-- A handler response: HTTP status and body (`none` for the empty 204
preflight reply). -/
structure HandlerResponse where
  status : Nat
  body : Option HandlerBody
deriving DecidableEq, Repr

/-- `extractAndSendGCPInfo` (`handlers/cloudFunction.js:26-327`), restricted
to its decision structure: CORS preflight, the project-id gate, token
acquisition, delivery, and the response shapes of lines 56-62, 280-287,
294-317 and the outer catch of lines 319-326.  Metadata gathering and
payload assembly are collaborator calls without control flow of their own
and enter through the already-resolved `projectId`. -/
def extractAndSendGCPInfo (method : String) (projectId : Option String)
    (cfg : CognitoConfig) (tokenOutcome : TokenOutcome)
    (k : AwsConsts) (env : AwsEnv) (script : Script) : HandlerResponse :=
  if method = "OPTIONS" then ⟨204, none⟩
  else
    match projectId with
    | none => ⟨500, some ⟨false, "", true, false⟩⟩
    | some _ =>
        match (getCognitoAccessToken cfg tokenOutcome).result with
        | .error _ =>
            ⟨500, some ⟨false,
              "The function could not authenticate with Cognito to obtain an access token. Check the cognitoError details for more information.",
              true, true⟩⟩
        | .ok cognitoAuth =>
            match (sendToAwsEndpoint k env (some cognitoAuth) script).result with
            | .error _ => ⟨500, some ⟨false, "", true, false⟩⟩
            | .ok (.success _ _ _ _) =>
                ⟨200, some ⟨true, "Data extracted and sent successfully", false, false⟩⟩
            | .ok (.failure _ _ _) =>
                ⟨200, some ⟨true,
                  "Data extracted successfully but failed to send to AWS", true, false⟩⟩

/-! ## Lemmas about the base64 model -/

theorem b64Val_toB64Char : ∀ n, n < 64 → b64Val (toB64Char n) = some n := by decide

theorem isB64Char_toB64Char (n : Nat) : isB64Char (toB64Char n) = true := by
  rcases Nat.lt_or_ge n 64 with h | h
  · rw [isB64Char, b64Val_toB64Char n h]; rfl
  · have hs : toB64Char n = '/' := by
      unfold toB64Char
      rw [if_neg (by omega), if_neg (by omega), if_neg (by omega), if_neg (by omega)]
    rw [hs]; decide

theorem b64Val_pad : b64Val '=' = none := by decide

theorem decode_encode3 : ∀ bs : List Nat, (∀ b ∈ bs, b < 256) →
    decodeSextets ((encode3 bs).filterMap b64Val) = bs
  | [], _ => by simp [encode3, decodeSextets]
  | [b1], h => by
      have hb : b1 < 256 := h b1 (by simp)
      have h1 := b64Val_toB64Char (b1 / 4) (by omega)
      have h2 := b64Val_toB64Char (b1 % 4 * 16) (by omega)
      simp [encode3, List.filterMap_cons, h1, h2, b64Val_pad, decodeSextets]
      all_goals omega
  | [b1, b2], h => by
      have hb1 : b1 < 256 := h b1 (by simp)
      have hb2 : b2 < 256 := h b2 (by simp)
      have h1 := b64Val_toB64Char (b1 / 4) (by omega)
      have h2 := b64Val_toB64Char (b1 % 4 * 16 + b2 / 16) (by omega)
      have h3 := b64Val_toB64Char (b2 % 16 * 4) (by omega)
      simp [encode3, List.filterMap_cons, h1, h2, h3, b64Val_pad, decodeSextets]
      all_goals omega
  | b1 :: b2 :: b3 :: rest, h => by
      have hb1 : b1 < 256 := h b1 (by simp)
      have hb2 : b2 < 256 := h b2 (by simp)
      have hb3 : b3 < 256 := h b3 (by simp)
      have h1 := b64Val_toB64Char (b1 / 4) (by omega)
      have h2 := b64Val_toB64Char (b1 % 4 * 16 + b2 / 16) (by omega)
      have h3 := b64Val_toB64Char (b2 % 16 * 4 + b3 / 64) (by omega)
      have h4 := b64Val_toB64Char (b3 % 64) (by omega)
      have ih := decode_encode3 rest (fun b hb => h b (by simp [hb]))
      simp [encode3, List.filterMap_cons, h1, h2, h3, h4, decodeSextets, ih]
      all_goals
        first
        | (refine ⟨?_, ?_, ?_⟩ <;> omega)
        | omega

theorem encode3_chars : ∀ bs : List Nat, ∀ c ∈ encode3 bs,
    isB64Char c = true ∨ c = '='
  | [], c, hc => by simp [encode3] at hc
  | [b1], c, hc => by
      simp [encode3] at hc
      rcases hc with rfl | rfl | rfl
      · exact Or.inl (isB64Char_toB64Char _)
      · exact Or.inl (isB64Char_toB64Char _)
      · exact Or.inr rfl
  | [b1, b2], c, hc => by
      simp [encode3] at hc
      rcases hc with rfl | rfl | rfl | rfl
      · exact Or.inl (isB64Char_toB64Char _)
      · exact Or.inl (isB64Char_toB64Char _)
      · exact Or.inl (isB64Char_toB64Char _)
      · exact Or.inr rfl
  | b1 :: b2 :: b3 :: rest, c, hc => by
      simp [encode3] at hc
      rcases hc with rfl | rfl | rfl | rfl | hmem
      · exact Or.inl (isB64Char_toB64Char _)
      · exact Or.inl (isB64Char_toB64Char _)
      · exact Or.inl (isB64Char_toB64Char _)
      · exact Or.inl (isB64Char_toB64Char _)
      · exact encode3_chars rest c hmem

theorem encode3_ne_nil : ∀ bs : List Nat, bs ≠ [] → encode3 bs ≠ []
  | [], h => absurd rfl h
  | [_], _ => by simp [encode3]
  | [_, _], _ => by simp [encode3]
  | _ :: _ :: _ :: _, _ => by simp [encode3]

theorem b64Char_not_ws (c : Char) (h : isB64Char c = true) :
    c.isWhitespace = false := by
  by_contra hw
  have hw : c.isWhitespace = true := by
    revert hw; cases hv : c.isWhitespace <;> simp
  have hd : ((c = ' ' ∨ c = '\t') ∨ c = '\x0d') ∨ c = '\n' := by
    simpa [Char.isWhitespace] using hw
  rcases hd with ((rfl | rfl) | rfl) | rfl <;> simp [isB64Char, b64Val] at h

theorem pad_not_ws : ('=').isWhitespace = false := by decide

theorem dropWhile_eq_self {p : Char → Bool} :
    ∀ l : List Char, (∀ c ∈ l, p c = false) → l.dropWhile p = l
  | [], _ => rfl
  | c :: l, h => by
      have hc := h c (by simp)
      simp [List.dropWhile_cons, hc]

theorem jsTrim_eq_self (s : String) (h : ∀ c ∈ s.data, c.isWhitespace = false) :
    jsTrim s = s := by
  unfold jsTrim
  have h2 : s.data.reverse.dropWhile Char.isWhitespace = s.data.reverse :=
    dropWhile_eq_self _ (fun c hc => h c (by simpa using hc))
  rw [dropWhile_eq_self _ h, h2, List.reverse_reverse]

theorem mem_dropWhile_of_ne {p : Char → Bool} {a : Char} :
    ∀ l : List Char, a ∈ l → p a = false → a ∈ l.dropWhile p
  | c :: l, h, ha => by
      by_cases hc : p c = true
      · rw [List.dropWhile_cons, if_pos hc]
        rcases List.mem_cons.mp h with rfl | hmem
        · rw [ha] at hc; cases hc
        · exact mem_dropWhile_of_ne l hmem ha
      · rw [List.dropWhile_cons, if_neg hc]
        exact h

theorem mem_of_mem_dropWhile {p : Char → Bool} {a : Char} :
    ∀ l : List Char, a ∈ l.dropWhile p → a ∈ l
  | [], h => h
  | c :: l, h => by
      by_cases hc : p c = true
      · rw [List.dropWhile_cons, if_pos hc] at h
        exact List.mem_cons_of_mem _ (mem_of_mem_dropWhile l h)
      · rw [List.dropWhile_cons, if_neg hc] at h
        exact h

theorem mem_stripTrailingEq_of_ne {a : Char} (l : List Char)
    (h : a ∈ l) (hne : a ≠ '=') : a ∈ stripTrailingEq l := by
  unfold stripTrailingEq
  rw [List.mem_reverse]
  exact mem_dropWhile_of_ne _ (List.mem_reverse.mpr h) (by simpa using hne)

theorem mem_of_mem_stripTrailingEq {a : Char} (l : List Char)
    (h : a ∈ stripTrailingEq l) : a ∈ l := by
  unfold stripTrailingEq at h
  rw [List.mem_reverse] at h
  exact List.mem_reverse.mp (mem_of_mem_dropWhile _ h)

theorem tryDecodeBase64_none_of_alien {v : String} {c0 : Char}
    (hc : c0 ∈ v.data) (hb : isB64Char c0 = false) (hp : c0 ≠ '=') :
    tryDecodeBase64 v = none := by
  unfold tryDecodeBase64
  by_cases hdec : nodeB64Decode v = []
  · simp [hdec]
  · simp only [hdec, if_neg, if_false]
    have hne2 :
        ¬ stripTrailingEq (encode3 (nodeB64Decode v)) = stripTrailingEq v.data := by
      intro heq
      have h1 : c0 ∈ stripTrailingEq v.data := mem_stripTrailingEq_of_ne _ hc hp
      rw [← heq] at h1
      have h2 : c0 ∈ encode3 (nodeB64Decode v) := mem_of_mem_stripTrailingEq _ h1
      rcases encode3_chars _ c0 h2 with h | h
      · rw [h] at hb; cases hb
      · exact hp h
    rw [if_neg hne2]

theorem tryDecodeBase64_encode (bs : List Nat) (h : ∀ b ∈ bs, b < 256)
    (hne : bs ≠ []) : tryDecodeBase64 (b64encode bs) = some bs := by
  unfold tryDecodeBase64
  have hdec : nodeB64Decode (b64encode bs) = bs := by
    unfold nodeB64Decode b64encode
    exact decode_encode3 bs h
  rw [hdec, if_neg hne]
  show (if stripTrailingEq (encode3 bs) = stripTrailingEq (b64encode bs).data
        then some bs else none) = some bs
  rw [if_pos (show stripTrailingEq (encode3 bs) = stripTrailingEq (b64encode bs).data
        from rfl)]

/-! ## Claims about SecretResolver and TokenProvider -/

/-- Claim C4 as stated is false at two concrete inputs: `resolve("")` is the
JavaScript `null` (not `""`), although `""` is `base64encode("")`; and for
`" aGVsbG8= "` — a string containing the character `' '`, which is outside
the base64 alphabet — `resolve` returns the decoded plaintext `"hello"`
rather than the trimmed original `"aGVsbG8="`. -/
theorem claim_C4_counterexample :
    (resolveClientSecret "" = none ∧ b64encode [] = "") ∧
    (' ' ∈ (" aGVsbG8= ").data ∧ isB64Char ' ' = false) ∧
    resolveClientSecret " aGVsbG8= " = some "hello" ∧
    jsTrim " aGVsbG8= " = "aGVsbG8=" ∧
    ("hello" : String) ≠ "aGVsbG8=" := by
  refine ⟨⟨rfl, rfl⟩, ⟨by decide, by decide⟩, by decide, by decide, by decide⟩

/-- Claim C4 (amended): for every non-empty plaintext (modelled as its utf8
byte sequence), resolving the base64 encoding takes the decode branch and
recovers exactly those bytes; and for every string whose trimmed form
contains at least one character that is neither in the base64 alphabet nor
`'='`, resolution takes the plaintext branch and returns the trimmed
string unchanged. -/
theorem claim_C4_amended :
    (∀ bs : List Nat, (∀ b ∈ bs, b < 256) → bs ≠ [] →
        resolveClientSecretR (b64encode bs) = .decoded bs) ∧
    (∀ t : String, (∃ c ∈ (jsTrim t).data, isB64Char c = false ∧ c ≠ '=') →
        resolveClientSecretR t = .plain (jsTrim t)) := by
  constructor
  · intro bs h hne
    have hnws : ∀ c ∈ (b64encode bs).data, c.isWhitespace = false := by
      intro c hc
      rcases encode3_chars bs c hc with hb | rfl
      · exact b64Char_not_ws c hb
      · exact pad_not_ws
    have hsne : b64encode bs ≠ "" := by
      intro hcontra
      exact encode3_ne_nil bs hne congr(($hcontra).data)
    unfold resolveClientSecretR
    rw [if_neg hsne, jsTrim_eq_self _ hnws, tryDecodeBase64_encode bs h hne]
  · intro t ht
    obtain ⟨c0, hc0, hb, hp⟩ := ht
    have htne : t ≠ "" := by
      rintro rfl
      simp [jsTrim] at hc0
    unfold resolveClientSecretR
    rw [if_neg htne, tryDecodeBase64_none_of_alien hc0 hb hp]

/-- Witness for `claim_C4_amended`: the bytes of `"hi"` round-trip through
the decode branch, and `"hello world!"` (its trimmed form contains `' '`
and `'!'`) is returned trimmed and unchanged. -/
theorem claim_C4_witness :
    resolveClientSecretR (b64encode [104, 105]) = .decoded [104, 105] ∧
    resolveClientSecretR "hello world!" = .plain (jsTrim "hello world!") :=
  ⟨claim_C4_amended.1 [104, 105] (by decide) (by decide),
   claim_C4_amended.2 "hello world!" ⟨' ', by decide, by decide, by decide⟩⟩

/-- Claim C8: when the token URL, client ID or raw secret is missing, token
acquisition fails with no network call, the error message is the fixed
prefix followed by the comma-joined list of exactly the missing field
names, and each of the three names is listed precisely when its field is
missing — in particular `COGNITO_CLIENT_SECRET_B64` when the secret is
absent. -/
theorem claim_C8_missing_config (cfg : CognitoConfig) (outcome : TokenOutcome)
    (h : cfg.tokenUrl = "" ∨ cfg.clientId = "" ∨ cfg.secretFromEnv = "") :
    (getCognitoAccessToken cfg outcome).result =
      .error ("Missing Cognito OAuth configuration: " ++
        String.intercalate ", " (cognitoMissingFields cfg)) ∧
    (getCognitoAccessToken cfg outcome).tokenRequests = 0 ∧
    (cfg.tokenUrl = "" ↔ "COGNITO_TOKEN_URL" ∈ cognitoMissingFields cfg) ∧
    (cfg.clientId = "" ↔ "COGNITO_CLIENT_ID" ∈ cognitoMissingFields cfg) ∧
    (cfg.secretFromEnv = "" ↔
      "COGNITO_CLIENT_SECRET_B64" ∈ cognitoMissingFields cfg) := by
  unfold getCognitoAccessToken
  rw [if_pos h]
  refine ⟨rfl, rfl, ?_, ?_, ?_⟩ <;>
    · unfold cognitoMissingFields
      by_cases h1 : cfg.tokenUrl = "" <;>
        by_cases h2 : cfg.clientId = "" <;>
          by_cases h3 : cfg.secretFromEnv = "" <;>
            simp [h1, h2, h3]

/-- Witness for `claim_C8_missing_config` at a configuration missing only the
client secret. -/
theorem claim_C8_witness :
    (getCognitoAccessToken ⟨"https://t", "cid", "", ""⟩ (.ok none)).result =
      .error ("Missing Cognito OAuth configuration: " ++
        String.intercalate ", "
          (cognitoMissingFields ⟨"https://t", "cid", "", ""⟩)) ∧
    (getCognitoAccessToken ⟨"https://t", "cid", "", ""⟩ (.ok none)).tokenRequests = 0 ∧
    "COGNITO_CLIENT_SECRET_B64" ∈ cognitoMissingFields ⟨"https://t", "cid", "", ""⟩ :=
  have h := claim_C8_missing_config ⟨"https://t", "cid", "", ""⟩ (.ok none)
    (Or.inr (Or.inr rfl))
  ⟨h.1, h.2.1, (h.2.2.2.2).mp rfl⟩

theorem getCognito_ok_token_ne (cfg : CognitoConfig) (outcome : TokenOutcome)
    (g : CognitoAuth)
    (h : (getCognitoAccessToken cfg outcome).result = .ok g) :
    g.token ≠ "" := by
  simp only [getCognitoAccessToken] at h
  split at h
  · simp at h
  · split at h
    · simp at h
    · split at h
      · simp at h
      · simp at h
      · split at h
        · simp at h
        · split at h
          · simp at h
          · rename_i htok
            simp at h
            subst h
            simpa using htok

/-- Claim C9: a successful token acquisition always returns a grant with a
non-empty token: empty or missing `access_token` fields are rejected. -/
theorem claim_C9_nonempty_token (cfg : CognitoConfig) (outcome : TokenOutcome)
    (g : CognitoAuth)
    (h : (getCognitoAccessToken cfg outcome).result = .ok g) :
    g.token ≠ "" :=
  getCognito_ok_token_ne cfg outcome g h

/-- Witness for `claim_C9_nonempty_token` at a concrete successful exchange. -/
theorem claim_C9_witness :
    (getCognitoAccessToken ⟨"https://t", "cid", "", "p@ss"⟩
        (.ok (some ⟨some "abc", some "Bearer", some 3600, none⟩))).result =
      .ok ⟨"abc", "Bearer", some 3600, none⟩ ∧
    ("abc" : String) ≠ "" :=
  ⟨by decide,
   claim_C9_nonempty_token ⟨"https://t", "cid", "", "p@ss"⟩
     (.ok (some ⟨some "abc", some "Bearer", some 3600, none⟩))
     ⟨"abc", "Bearer", some 3600, none⟩ (by decide)⟩

/-- Claim C10: a non-empty, all-whitespace client secret passes the presence
check but fails with the distinct unresolvable-secret error, with no call
to the token endpoint. -/
theorem claim_C10_whitespace_secret (cfg : CognitoConfig)
    (outcome : TokenOutcome)
    (hu : cfg.tokenUrl ≠ "") (hc : cfg.clientId ≠ "")
    (hs : cfg.secretFromEnv ≠ "")
    (hw : ∀ c ∈ cfg.secretFromEnv.data, c.isWhitespace = true) :
    (getCognitoAccessToken cfg outcome).result =
      .error "Unable to resolve Cognito client secret from Terraform-provided value." ∧
    (getCognitoAccessToken cfg outcome).tokenRequests = 0 := by
  have htrim : jsTrim cfg.secretFromEnv = "" := by
    unfold jsTrim
    have h1 : cfg.secretFromEnv.data.dropWhile Char.isWhitespace = [] := by
      rw [List.dropWhile_eq_nil_iff]
      intro c hc2
      exact hw c hc2
    rw [h1]
    rfl
  have hres : resolveClientSecret cfg.secretFromEnv = some "" := by
    unfold resolveClientSecret resolveClientSecretR
    rw [if_neg hs, htrim]
    rfl
  unfold getCognitoAccessToken
  rw [if_neg (by push_neg; exact ⟨hu, hc, hs⟩), hres]
  exact ⟨rfl, rfl⟩

/-- Witness for `claim_C10_whitespace_secret` at the three-space secret. -/
theorem claim_C10_witness :
    (getCognitoAccessToken ⟨"https://t", "cid", "", "   "⟩ (.ok none)).result =
      .error "Unable to resolve Cognito client secret from Terraform-provided value." ∧
    (getCognitoAccessToken ⟨"https://t", "cid", "", "   "⟩ (.ok none)).tokenRequests = 0 :=
  claim_C10_whitespace_secret ⟨"https://t", "cid", "", "   "⟩ (.ok none)
    (by decide) (by decide) (by decide) (by decide)

/-! ## Lemmas and claims about the delivery pipeline -/

theorem headD_eq_getD {α : Type} (l : List α) (d : α) :
    l.headD d = l.getD 0 d := by
  cases l <;> rfl

theorem getD_tail {α : Type} (l : List α) (n : Nat) (d : α) :
    l.tail.getD n d = l.getD (n + 1) d := by
  cases l <;> simp [List.getD]

theorem getD_drop {α : Type} :
    ∀ (m : Nat) (l : List α) (n : Nat) (d : α),
      (l.drop m).getD n d = l.getD (m + n) d
  | 0, l, n, d => by simp
  | m + 1, [], n, d => by simp [List.getD]
  | m + 1, a :: t, n, d => by
      simpa [Nat.succ_add] using getD_drop m t n d

theorem string_append_left_cancel {a b c : String} (h : a ++ b = a ++ c) :
    b = c := by
  have hd := congrArg String.data h
  simp only [String.data_append] at hd
  have h2 := List.append_cancel_left hd
  cases b; cases c
  exact congrArg String.mk h2

/-- Claim C7: with no grant, or a grant carrying an empty token, the pipeline
throws the missing-credentials error before making any network call and
without any token refresh. -/
theorem claim_C7_missing_token (k : AwsConsts) (env : AwsEnv)
    (auth : Option CognitoAuth) (script : Script)
    (h : auth = none ∨ ∃ a, auth = some a ∧ a.token = "") :
    (sendToAwsEndpoint k env auth script).result =
      .error "Cannot send to AWS: Cognito token was not obtained successfully." ∧
    (sendToAwsEndpoint k env auth script).requests = [] ∧
    (sendToAwsEndpoint k env auth script).refreshCalls = 0 := by
  rcases h with rfl | ⟨a, rfl, ha⟩
  · exact ⟨rfl, rfl, rfl⟩
  · simp only [sendToAwsEndpoint, ha]
    exact ⟨rfl, rfl, rfl⟩

/-- Witness for `claim_C7_missing_token` at a grant with an empty token. -/
theorem claim_C7_witness :
    (sendToAwsEndpoint ⟨"https://h.example", "/dev/run-assessment"⟩ ⟨"", "", ""⟩
        (some ⟨"", "Bearer", none, none⟩) ⟨[], .err ⟨"", none, ""⟩⟩).result =
      .error "Cannot send to AWS: Cognito token was not obtained successfully." ∧
    (sendToAwsEndpoint ⟨"https://h.example", "/dev/run-assessment"⟩ ⟨"", "", ""⟩
        (some ⟨"", "Bearer", none, none⟩) ⟨[], .err ⟨"", none, ""⟩⟩).requests = [] ∧
    (sendToAwsEndpoint ⟨"https://h.example", "/dev/run-assessment"⟩ ⟨"", "", ""⟩
        (some ⟨"", "Bearer", none, none⟩) ⟨[], .err ⟨"", none, ""⟩⟩).refreshCalls = 0 :=
  claim_C7_missing_token _ _ _ _ (Or.inr ⟨⟨"", "Bearer", none, none⟩, rfl, rfl⟩)

/-- Claim C1 evaluated at the failing input: the first POST returns 401, the
forced refresh yields a grant with token `newtok`, the single retry of the
same endpoint returns 200 and the run reports `retriedWithNewToken`; but
the retry request of `services/aws-requests.js` carries headers built from
the original `oldtok` grant — `refreshedAuth` is dropped — whereas the
`part_001` variant rebuilds the retry headers from the refreshed grant. -/
theorem claim_C1_retry_uses_original_token :
    (sendToAwsEndpoint ⟨"https://h.example", "/dev/run-assessment"⟩ ⟨"", "", ""⟩
        (some ⟨"oldtok", "Bearer", none, none⟩)
        ⟨[.res 401 "Unauthorized", .res 200 "OK"],
          .ok ⟨"newtok", "Bearer", none, none⟩⟩) =
      { result := .ok (.success 200 "OK" "https://h.example/dev/run-assessment" true),
        requests :=
          [⟨"https://h.example/dev/run-assessment",
            ⟨"application/json", some "oldtok", some "Bearer oldtok", none⟩⟩,
           ⟨"https://h.example/dev/run-assessment",
            ⟨"application/json", some "oldtok", some "Bearer oldtok", none⟩⟩],
        refreshCalls := 1 } ∧
    some "oldtok" ≠ some "newtok" ∧
    (sendToAwsEndpointV1 "https://h.example" ""
        (some ⟨"oldtok", "Bearer", none, none⟩)
        ⟨[.res 401 "Unauthorized", .res 200 "OK"],
          .ok ⟨"newtok", "Bearer", none, none⟩⟩) =
      { result := .ok (.success 200 "OK" "https://h.example/dev/run-assessment" true),
        requests :=
          [⟨"https://h.example/dev/run-assessment",
            ⟨"application/json", some "oldtok", some "Bearer oldtok", none⟩⟩,
           ⟨"https://h.example/dev/run-assessment",
            ⟨"application/json", some "newtok", some "Bearer newtok", none⟩⟩],
        refreshCalls := 1 } := by
  refine ⟨by decide, by decide, by decide⟩

theorem resolveAwsEndpoint_noenv (b cp : String) :
    resolveAwsEndpoint ⟨b, cp⟩ ⟨"", "", ""⟩ =
      (if jsTrim cp ≠ "" then buildEndpointWithPath b (jsTrim cp)
       else if containsSlashFrom8 b = false then b ++ cp
       else b) := by
  have hcp : (if cp ≠ "" then cp else "") = cp := by
    by_cases h : cp = "" <;> simp [h]
  simp [resolveAwsEndpoint, hcp]

theorem build_on_h_example_already (q : String) :
    buildEndpointWithPath "https://h.example/already/path" q =
      "https://h.example" ++ (if strStartsWith q "/" then q else "/" ++ q) := by
  have hp1 : urlParse "https://h.example/already/path" =
      some ⟨"https:", "h.example", ""⟩ := by decide
  have ho : originOf ⟨"https:", "h.example", ""⟩ = "https://h.example" := by decide
  simp [buildEndpointWithPath, hp1, ho]

theorem build_on_h_example (q : String) :
    buildEndpointWithPath "https://h.example" q =
      "https://h.example" ++ (if strStartsWith q "/" then q else "/" ++ q) := by
  have hp1 : urlParse "https://h.example" = some ⟨"https:", "h.example", ""⟩ := by
    decide
  have ho : originOf ⟨"https:", "h.example", ""⟩ = "https://h.example" := by decide
  simp [buildEndpointWithPath, hp1, ho]

/-- Claim C5 fails on `services/aws-requests.js` for every possible value of
the `constants.AWS_ENDPOINT_PATH` export (whose source is not under `src/`;
the spec models the default path as `/dev/run-assessment`): with no
environment override, either the base URL `https://h.example/already/path`,
which already has a path, is not used unchanged, or the base URL
`https://h.example`, which has none, does not get `/dev/run-assessment`
appended.  The constant feeds both the override fallback
(`aws-requests.js:56`) and the appended default (`aws-requests.js:67`), so
no single value yields the claimed three-way split. -/
theorem claim_C5_no_constant_realizes_split (cp : String) :
    resolveAwsEndpoint ⟨"https://h.example/already/path", cp⟩ ⟨"", "", ""⟩ ≠
      "https://h.example/already/path" ∨
    resolveAwsEndpoint ⟨"https://h.example", cp⟩ ⟨"", "", ""⟩ ≠
      "https://h.example/dev/run-assessment" := by
  by_cases htp : jsTrim cp = ""
  · right
    rw [resolveAwsEndpoint_noenv, if_neg (by simp [htp]), if_pos (by decide)]
    intro heq
    have h2 : ("https://h.example" ++ cp : String) =
        "https://h.example" ++ "/dev/run-assessment" := by
      rw [heq]; decide
    have h3 := string_append_left_cancel h2
    rw [h3] at htp
    exact absurd htp (by decide)
  · by_cases hnorm :
        (if strStartsWith (jsTrim cp) "/" then jsTrim cp else "/" ++ jsTrim cp) =
          "/already/path"
    · right
      rw [resolveAwsEndpoint_noenv, if_pos htp, build_on_h_example (jsTrim cp), hnorm]
      intro heq
      have h2 : ("https://h.example" ++ "/already/path" : String) =
          "https://h.example" ++ "/dev/run-assessment" := by
        rw [heq]; decide
      have h3 := string_append_left_cancel h2
      exact absurd h3 (by decide)
    · left
      rw [resolveAwsEndpoint_noenv, if_pos htp, build_on_h_example_already (jsTrim cp)]
      intro heq
      have h2 : ("https://h.example" : String) ++
          (if strStartsWith (jsTrim cp) "/" then jsTrim cp else "/" ++ jsTrim cp) =
          "https://h.example" ++ "/already/path" := by
        rw [heq]; decide
      exact hnorm (string_append_left_cancel h2)

theorem send_primary_success (k : AwsConsts) (env : AwsEnv) (a : CognitoAuth)
    (script : Script) (ha : ¬ a.token = "")
    (h1 : is2xx (script.posts.headD defaultOutcome) = true) :
    sendToAwsEndpoint k env (some a) script =
      ⟨.ok (.success (statusOf (script.posts.headD defaultOutcome))
          (statusTextOf (script.posts.headD defaultOutcome))
          (resolveAwsEndpoint k env) false),
        [⟨resolveAwsEndpoint k env, getAwsRequestHeaders env.awsApiKey (some a)⟩], 0⟩ := by
  simp only [sendToAwsEndpoint, ha, h1, if_true, if_false, ite_true, ite_false,
    eq_self_iff_true, not_false_iff]

theorem send_retry_success (k : AwsConsts) (env : AwsEnv) (a : CognitoAuth)
    (script : Script) (ha : ¬ a.token = "")
    (h1 : is2xx (script.posts.headD defaultOutcome) = false)
    (h401 : (outcomeToError (script.posts.headD defaultOutcome)).status = some 401)
    (ra : CognitoAuth) (href : script.refresh = .ok ra)
    (h2 : is2xx (script.posts.getD 1 defaultOutcome) = true) :
    sendToAwsEndpoint k env (some a) script =
      ⟨.ok (.success (statusOf (script.posts.getD 1 defaultOutcome))
          (statusTextOf (script.posts.getD 1 defaultOutcome))
          (resolveAwsEndpoint k env) true),
        List.replicate 2 ⟨resolveAwsEndpoint k env, getAwsRequestHeaders env.awsApiKey (some a)⟩, 1⟩ := by
  simp only [sendToAwsEndpoint, ha, h1, h401, href, h2, if_true, if_false, ite_true,
    ite_false, eq_self_iff_true, not_false_iff, List.replicate, Bool.false_eq_true,
    Bool.true_eq_false]

theorem send_after_primary_failure (k : AwsConsts) (env : AwsEnv) (a : CognitoAuth)
    (script : Script) (ha : ¬ a.token = "")
    (h1 : is2xx (script.posts.headD defaultOutcome) = false)
    (h2 : ∀ ra, (outcomeToError (script.posts.headD defaultOutcome)).status = some 401 →
        script.refresh = .ok ra → is2xx (script.posts.getD 1 defaultOutcome) = false) :
    sendToAwsEndpoint k env (some a) script =
      (if (primaryPhaseError script).status = some 404 ∧ env.awsEndpointPath = "" then
        (match (tryAlternates env.awsApiKey a
            (extractAwsBase (resolveAwsEndpoint k env)) alternativePaths
            (script.posts.drop (primaryPosts script))).1 with
         | some (s, st, aep) =>
            ⟨.ok (.success s st aep false),
              List.replicate (primaryPosts script)
                ⟨resolveAwsEndpoint k env, getAwsRequestHeaders env.awsApiKey (some a)⟩ ++
              (tryAlternates env.awsApiKey a
                (extractAwsBase (resolveAwsEndpoint k env)) alternativePaths
                (script.posts.drop (primaryPosts script))).2,
              if (outcomeToError (script.posts.headD defaultOutcome)).status = some 401
                then 1 else 0⟩
         | none =>
            ⟨.ok (.failure
                (buildErrorDetails (primaryPhaseError script)
                  (resolveAwsEndpoint k env) (some a))
                (primaryPhaseError script) (resolveAwsEndpoint k env)),
              List.replicate (primaryPosts script)
                ⟨resolveAwsEndpoint k env, getAwsRequestHeaders env.awsApiKey (some a)⟩ ++
              (tryAlternates env.awsApiKey a
                (extractAwsBase (resolveAwsEndpoint k env)) alternativePaths
                (script.posts.drop (primaryPosts script))).2,
              if (outcomeToError (script.posts.headD defaultOutcome)).status = some 401
                then 1 else 0⟩)
       else
        ⟨.ok (.failure
            (buildErrorDetails (primaryPhaseError script)
              (resolveAwsEndpoint k env) (some a))
            (primaryPhaseError script) (resolveAwsEndpoint k env)),
          List.replicate (primaryPosts script)
            ⟨resolveAwsEndpoint k env, getAwsRequestHeaders env.awsApiKey (some a)⟩,
          if (outcomeToError (script.posts.headD defaultOutcome)).status = some 401
            then 1 else 0⟩) := by
  by_cases h401 : (outcomeToError (script.posts.headD defaultOutcome)).status = some 401
  · cases href : script.refresh with
    | ok ra =>
        have h2x := h2 ra h401 href
        simp only [sendToAwsEndpoint, primaryPhaseError, primaryPosts, ha, h1, h401, href,
          h2x, if_true, if_false, ite_true, ite_false, eq_self_iff_true, not_false_iff,
          Bool.false_eq_true, Bool.true_eq_false, List.replicate_succ, List.replicate_zero]
    | err e =>
        simp only [sendToAwsEndpoint, primaryPhaseError, primaryPosts, ha, h1, h401, href,
          if_true, if_false, ite_true, ite_false, eq_self_iff_true, not_false_iff,
          Bool.false_eq_true, Bool.true_eq_false, List.replicate_succ, List.replicate_zero]
  · simp only [sendToAwsEndpoint, primaryPhaseError, primaryPosts, ha, h1, h401,
      if_true, if_false, ite_true, ite_false, eq_self_iff_true, not_false_iff,
      Bool.false_eq_true, Bool.true_eq_false, List.replicate_succ, List.replicate_zero]

theorem tryAlternates_first_success (apiKey : String) (a : CognitoAuth)
    (base : String) (outcomes : List PostOutcome) (i : Nat) (hi : i < 5)
    (hfail : ∀ j, j < i → is2xx (outcomes.getD j defaultOutcome) = false)
    (hok : is2xx (outcomes.getD i defaultOutcome) = true) :
    tryAlternates apiKey a base alternativePaths outcomes =
      (some (statusOf (outcomes.getD i defaultOutcome),
             statusTextOf (outcomes.getD i defaultOutcome),
             base ++ alternativePaths.getD i ""),
       (List.range (i + 1)).map
         (fun j => ⟨base ++ alternativePaths.getD j "",
                    getAwsRequestHeaders apiKey (some a)⟩)) := by
  interval_cases i
  · simp only [tryAlternates, alternativePaths, headD_eq_getD, getD_tail, hok,
      Bool.false_eq_true, Bool.true_eq_false, if_true, if_false, ite_true, ite_false,
      List.range_succ, List.range_zero, List.map_append, List.map_cons, List.map_nil,
      List.getD_cons_zero, List.getD_cons_succ, List.nil_append, List.cons_append,
      List.append_nil]
  · simp only [tryAlternates, alternativePaths, headD_eq_getD, getD_tail,
      hfail 0 (by omega), hok,
      Bool.false_eq_true, Bool.true_eq_false, if_true, if_false, ite_true, ite_false,
      List.range_succ, List.range_zero, List.map_append, List.map_cons, List.map_nil,
      List.getD_cons_zero, List.getD_cons_succ, List.nil_append, List.cons_append,
      List.append_nil]
  · simp only [tryAlternates, alternativePaths, headD_eq_getD, getD_tail,
      hfail 0 (by omega), hfail 1 (by omega), hok,
      Bool.false_eq_true, Bool.true_eq_false, if_true, if_false, ite_true, ite_false,
      List.range_succ, List.range_zero, List.map_append, List.map_cons, List.map_nil,
      List.getD_cons_zero, List.getD_cons_succ, List.nil_append, List.cons_append,
      List.append_nil]
  · simp only [tryAlternates, alternativePaths, headD_eq_getD, getD_tail,
      hfail 0 (by omega), hfail 1 (by omega), hfail 2 (by omega), hok,
      Bool.false_eq_true, Bool.true_eq_false, if_true, if_false, ite_true, ite_false,
      List.range_succ, List.range_zero, List.map_append, List.map_cons, List.map_nil,
      List.getD_cons_zero, List.getD_cons_succ, List.nil_append, List.cons_append,
      List.append_nil]
  · simp only [tryAlternates, alternativePaths, headD_eq_getD, getD_tail,
      hfail 0 (by omega), hfail 1 (by omega), hfail 2 (by omega), hfail 3 (by omega), hok,
      Bool.false_eq_true, Bool.true_eq_false, if_true, if_false, ite_true, ite_false,
      List.range_succ, List.range_zero, List.map_append, List.map_cons, List.map_nil,
      List.getD_cons_zero, List.getD_cons_succ, List.nil_append, List.cons_append,
      List.append_nil]

/-- Claim C2 (amended): whenever a pipeline run returns a Failure, its
endpoint field is the originally resolved primary endpoint and its
ErrorDetails are built from the Failure's lastError, which is the error the
primary phase (first POST, or refresh/retry after a 401) ended with;
alternate attempts contribute neither their endpoints nor their errors. -/
theorem claim_C2_amended (k : AwsConsts) (env : AwsEnv) (a : CognitoAuth)
    (script : Script) (d : ErrorDetails) (le : JsError) (ep : String)
    (h : (sendToAwsEndpoint k env (some a) script).result = .ok (.failure d le ep)) :
    ep = resolveAwsEndpoint k env ∧
    d = buildErrorDetails le ep (some a) ∧
    le = primaryPhaseError script := by
  by_cases ha : a.token = ""
  · simp [sendToAwsEndpoint, ha] at h
  · by_cases h1 : is2xx (script.posts.headD defaultOutcome) = true
    · rw [send_primary_success k env a script ha h1] at h
      simp at h
    · have h1f : is2xx (script.posts.headD defaultOutcome) = false := by
        cases hx : is2xx (script.posts.headD defaultOutcome)
        · rfl
        · exact absurd hx h1
      by_cases hrs : ∃ ra, (outcomeToError (script.posts.headD defaultOutcome)).status = some 401 ∧
          script.refresh = RefreshOutcome.ok ra ∧
          is2xx (script.posts.getD 1 defaultOutcome) = true
      · obtain ⟨ra, h401, href, h2⟩ := hrs
        rw [send_retry_success k env a script ha h1f h401 ra href h2] at h
        simp at h
      · have h2 : ∀ ra, (outcomeToError (script.posts.headD defaultOutcome)).status = some 401 →
            script.refresh = .ok ra → is2xx (script.posts.getD 1 defaultOutcome) = false := by
          intro ra h401 href
          cases hx : is2xx (script.posts.getD 1 defaultOutcome)
          · rfl
          · exact absurd ⟨ra, h401, href, hx⟩ hrs
        rw [send_after_primary_failure k env a script ha h1f h2] at h
        split at h
        · split at h
          · simp at h
          · simp at h
            obtain ⟨hd, hle, hep⟩ := h
            subst hep hle
            exact ⟨rfl, hd.symm, rfl⟩
        · simp at h
          obtain ⟨hd, hle, hep⟩ := h
          subst hep hle
          exact ⟨rfl, hd.symm, rfl⟩

/-- Claim C6: the 404 fallback runs only when the primary-phase error has
status 404 and no `AWS_ENDPOINT_PATH` environment override is set —
otherwise every POST of the run goes to the primary endpoint; when it runs
and the first 2xx among the alternates occurs at index `i`, the run
short-circuits with Success at `base ++ alternates[i]`, having issued exactly
one POST per alternate up to `i` — in the fixed order `/api`, `/data`,
`/webhook`, `/post`, `/submit` — each with headers built from the current
token, and with no token refresh beyond the primary phase. -/
theorem claim_C6_fallback (k : AwsConsts) (env : AwsEnv) (a : CognitoAuth)
    (script : Script) (ha : ¬ a.token = "") :
    ((env.awsEndpointPath ≠ "" ∨ (primaryPhaseError script).status ≠ some 404) →
      ∀ r ∈ (sendToAwsEndpoint k env (some a) script).requests,
        r.endpoint = resolveAwsEndpoint k env) ∧
    (∀ i, i < 5 →
      env.awsEndpointPath = "" →
      is2xx (script.posts.headD defaultOutcome) = false →
      (primaryPhaseError script).status = some 404 →
      (∀ j, j < i →
        is2xx (script.posts.getD (primaryPosts script + j) defaultOutcome) = false) →
      is2xx (script.posts.getD (primaryPosts script + i) defaultOutcome) = true →
      sendToAwsEndpoint k env (some a) script =
        ⟨.ok (.success
            (statusOf (script.posts.getD (primaryPosts script + i) defaultOutcome))
            (statusTextOf (script.posts.getD (primaryPosts script + i) defaultOutcome))
            (extractAwsBase (resolveAwsEndpoint k env) ++ alternativePaths.getD i "")
            false),
          List.replicate (primaryPosts script)
            ⟨resolveAwsEndpoint k env, getAwsRequestHeaders env.awsApiKey (some a)⟩ ++
          (List.range (i + 1)).map
            (fun j =>
              ⟨extractAwsBase (resolveAwsEndpoint k env) ++ alternativePaths.getD j "",
                getAwsRequestHeaders env.awsApiKey (some a)⟩),
          if (outcomeToError (script.posts.headD defaultOutcome)).status = some 401
            then 1 else 0⟩) := by
  constructor
  · intro hcond r hr
    by_cases h1 : is2xx (script.posts.headD defaultOutcome) = true
    · rw [send_primary_success k env a script ha h1] at hr
      have hx2 : r = ⟨resolveAwsEndpoint k env,
          getAwsRequestHeaders env.awsApiKey (some a)⟩ := by simpa using hr
      rw [hx2]
    · have h1f : is2xx (script.posts.headD defaultOutcome) = false := by
        cases hx : is2xx (script.posts.headD defaultOutcome)
        · rfl
        · exact absurd hx h1
      by_cases hrs : ∃ ra,
          (outcomeToError (script.posts.headD defaultOutcome)).status = some 401 ∧
          script.refresh = RefreshOutcome.ok ra ∧
          is2xx (script.posts.getD 1 defaultOutcome) = true
      · obtain ⟨ra, h401, href, h2⟩ := hrs
        rw [send_retry_success k env a script ha h1f h401 ra href h2] at hr
        have hx2 : r = ⟨resolveAwsEndpoint k env,
            getAwsRequestHeaders env.awsApiKey (some a)⟩ := by simpa using hr
        rw [hx2]
      · have h2 : ∀ ra,
            (outcomeToError (script.posts.headD defaultOutcome)).status = some 401 →
            script.refresh = .ok ra →
            is2xx (script.posts.getD 1 defaultOutcome) = false := by
          intro ra h401 href
          cases hx : is2xx (script.posts.getD 1 defaultOutcome)
          · rfl
          · exact absurd ⟨ra, h401, href, hx⟩ hrs
        rw [send_after_primary_failure k env a script ha h1f h2] at hr
        rw [if_neg (by
          rintro ⟨h404, hpath⟩
          rcases hcond with hc | hc
          · exact hc hpath
          · exact hc h404)] at hr
        have := List.eq_of_mem_replicate hr
        rw [this]
  · intro i hi hpath h1f h404 hfail hok
    have h2 : ∀ ra,
        (outcomeToError (script.posts.headD defaultOutcome)).status = some 401 →
        script.refresh = .ok ra →
        is2xx (script.posts.getD 1 defaultOutcome) = false := by
      intro ra h401 href
      cases hx : is2xx (script.posts.getD 1 defaultOutcome)
      · rfl
      · exfalso
        have hpe : (primaryPhaseError script).status = some 401 := by
          simp only [primaryPhaseError, h401, href, hx, if_true, if_false, ite_true,
            ite_false, eq_self_iff_true]
        rw [h404] at hpe
        simp at hpe
    rw [send_after_primary_failure k env a script ha h1f h2,
      if_pos ⟨h404, hpath⟩]
    have halt := tryAlternates_first_success env.awsApiKey a
      (extractAwsBase (resolveAwsEndpoint k env))
      (script.posts.drop (primaryPosts script)) i hi
      (by
        intro j hj
        rw [getD_drop]
        exact hfail j hj)
      (by
        rw [getD_drop]
        exact hok)
    rw [halt]
    dsimp only
    simp only [getD_drop]

/-- Claim C2 as stated is false at a concrete run: the primary endpoint 404s,
all five alternates are attempted and fail (six POSTs in total, the last to
`/submit` with a transport error `boom`), yet the Failure carries the
primary endpoint — not the last alternate tried — and ErrorDetails built
from the primary 404 error, not from the last error encountered. -/
theorem claim_C2_counterexample :
    (sendToAwsEndpoint ⟨"https://h.example", "/dev/run-assessment"⟩ ⟨"", "", ""⟩
        (some ⟨"tok", "Bearer", none, none⟩)
        ⟨[.res 404 "NF", .res 403 "F1", .res 500 "F2", .res 502 "F3",
          .res 503 "F4", .netErr "boom"], .ok ⟨"n", "Bearer", none, none⟩⟩) =
      { result := .ok (.failure
          ⟨"Request failed with status code 404",
            "https://h.example/dev/run-assessment", some 404, "NF", true, "tok..."⟩
          ⟨"Request failed with status code 404", some 404, "NF"⟩
          "https://h.example/dev/run-assessment"),
        requests :=
          [⟨"https://h.example/dev/run-assessment",
            ⟨"application/json", some "tok", some "Bearer tok", none⟩⟩,
           ⟨"https://h.example/api",
            ⟨"application/json", some "tok", some "Bearer tok", none⟩⟩,
           ⟨"https://h.example/data",
            ⟨"application/json", some "tok", some "Bearer tok", none⟩⟩,
           ⟨"https://h.example/webhook",
            ⟨"application/json", some "tok", some "Bearer tok", none⟩⟩,
           ⟨"https://h.example/post",
            ⟨"application/json", some "tok", some "Bearer tok", none⟩⟩,
           ⟨"https://h.example/submit",
            ⟨"application/json", some "tok", some "Bearer tok", none⟩⟩],
        refreshCalls := 0 } ∧
    ("https://h.example/dev/run-assessment" : String) ≠ "https://h.example/submit" ∧
    ("Request failed with status code 404" : String) ≠ "boom" := by
  refine ⟨by decide, by decide, by decide⟩

/-- Witness for `claim_C2_amended` at the run of `claim_C2_counterexample`:
the Failure fields are the primary endpoint, details built from the last
primary-phase error, and that error itself. -/
theorem claim_C2_witness :
    ("https://h.example/dev/run-assessment" : String) =
      resolveAwsEndpoint ⟨"https://h.example", "/dev/run-assessment"⟩ ⟨"", "", ""⟩ ∧
    (⟨"Request failed with status code 404",
        "https://h.example/dev/run-assessment", some 404, "NF", true, "tok..."⟩ :
        ErrorDetails) =
      buildErrorDetails ⟨"Request failed with status code 404", some 404, "NF"⟩
        "https://h.example/dev/run-assessment" (some ⟨"tok", "Bearer", none, none⟩) ∧
    (⟨"Request failed with status code 404", some 404, "NF"⟩ : JsError) =
      primaryPhaseError
        ⟨[.res 404 "NF", .res 403 "F1", .res 500 "F2", .res 502 "F3",
          .res 503 "F4", .netErr "boom"], .ok ⟨"n", "Bearer", none, none⟩⟩ :=
  claim_C2_amended ⟨"https://h.example", "/dev/run-assessment"⟩ ⟨"", "", ""⟩
    ⟨"tok", "Bearer", none, none⟩
    ⟨[.res 404 "NF", .res 403 "F1", .res 500 "F2", .res 502 "F3",
      .res 503 "F4", .netErr "boom"], .ok ⟨"n", "Bearer", none, none⟩⟩
    ⟨"Request failed with status code 404",
      "https://h.example/dev/run-assessment", some 404, "NF", true, "tok..."⟩
    ⟨"Request failed with status code 404", some 404, "NF"⟩
    "https://h.example/dev/run-assessment" (by decide)

/-- Witness for `claim_C6_fallback`: with no override and a 404 primary
outcome, the first two alternates fail and the third returns 201, so the
run short-circuits at `/webhook` with the current token and no refresh. -/
theorem claim_C6_witness :
    sendToAwsEndpoint ⟨"https://h.example", "/dev/run-assessment"⟩ ⟨"", "", ""⟩
        (some ⟨"tok", "Bearer", none, none⟩)
        ⟨[.res 404 "NF", .res 403 "F1", .res 500 "F2", .res 201 "Created"],
          .err ⟨"unused", none, ""⟩⟩ =
      ⟨.ok (.success 201 "Created" "https://h.example/webhook" false),
        [⟨"https://h.example/dev/run-assessment",
          ⟨"application/json", some "tok", some "Bearer tok", none⟩⟩,
         ⟨"https://h.example/api",
          ⟨"application/json", some "tok", some "Bearer tok", none⟩⟩,
         ⟨"https://h.example/data",
          ⟨"application/json", some "tok", some "Bearer tok", none⟩⟩,
         ⟨"https://h.example/webhook",
          ⟨"application/json", some "tok", some "Bearer tok", none⟩⟩],
        0⟩ := by
  have h := (claim_C6_fallback ⟨"https://h.example", "/dev/run-assessment"⟩
    ⟨"", "", ""⟩ ⟨"tok", "Bearer", none, none⟩
    ⟨[.res 404 "NF", .res 403 "F1", .res 500 "F2", .res 201 "Created"],
      .err ⟨"unused", none, ""⟩⟩ (by decide)).2 2 (by decide) rfl (by decide)
    (by decide)
    (by
      intro j hj
      interval_cases j
      · decide
      · decide)
    (by decide)
  rw [h]
  decide

theorem send_result_ok (k : AwsConsts) (env : AwsEnv) (a : CognitoAuth)
    (script : Script) (ha : ¬ a.token = "") :
    ∃ r, (sendToAwsEndpoint k env (some a) script).result = .ok r := by
  by_cases h1 : is2xx (script.posts.headD defaultOutcome) = true
  · exact ⟨_, by rw [send_primary_success k env a script ha h1]⟩
  · have h1f : is2xx (script.posts.headD defaultOutcome) = false := by
      cases hx : is2xx (script.posts.headD defaultOutcome)
      · rfl
      · exact absurd hx h1
    by_cases hrs : ∃ ra,
        (outcomeToError (script.posts.headD defaultOutcome)).status = some 401 ∧
        script.refresh = RefreshOutcome.ok ra ∧
        is2xx (script.posts.getD 1 defaultOutcome) = true
    · obtain ⟨ra, h401, href, h2⟩ := hrs
      exact ⟨_, by rw [send_retry_success k env a script ha h1f h401 ra href h2]⟩
    · have h2 : ∀ ra,
          (outcomeToError (script.posts.headD defaultOutcome)).status = some 401 →
          script.refresh = .ok ra →
          is2xx (script.posts.getD 1 defaultOutcome) = false := by
        intro ra h401 href
        cases hx : is2xx (script.posts.getD 1 defaultOutcome)
        · rfl
        · exact absurd ⟨ra, h401, href, hx⟩ hrs
      rw [send_after_primary_failure k env a script ha h1f h2]
      by_cases hc : (primaryPhaseError script).status = some 404 ∧
          env.awsEndpointPath = ""
      · rw [if_pos hc]
        cases halt : (tryAlternates env.awsApiKey a
            (extractAwsBase (resolveAwsEndpoint k env)) alternativePaths
            (script.posts.drop (primaryPosts script))).1 with
        | none => exact ⟨_, rfl⟩
        | some v =>
            obtain ⟨s, st, aep⟩ := v
            exact ⟨_, rfl⟩
      · rw [if_neg hc]
        exact ⟨_, rfl⟩

/-- Claim C3 as stated is false at a concrete handler run: the token is
obtained, delivery fails with a 500 from the endpoint, and the handler
responds 200 with a body whose `success` field is `true` — not `false` —
alongside the error object. -/
theorem claim_C3_counterexample :
    extractAndSendGCPInfo "POST" (some "proj") ⟨"https://t", "cid", "", "p@ss"⟩
        (.ok (some ⟨some "abc", some "Bearer", none, none⟩))
        ⟨"https://h.example", "/dev/run-assessment"⟩ ⟨"", "", ""⟩
        ⟨[.res 500 "ISE"], .err ⟨"x", none, ""⟩⟩ =
      ⟨200, some ⟨true, "Data extracted successfully but failed to send to AWS",
        true, false⟩⟩ ∧
    (true : Bool) ≠ false := by
  refine ⟨by decide, by decide⟩

/-- Claim C3 (amended): when a token was obtained and delivery returns a
Failure, the handler responds 200 with a body carrying `success: true`,
the extracted-but-not-delivered message, and an error object; and a 500
response implies the project id or the token could not be obtained. -/
theorem claim_C3_handler (method : String) (projectId : Option String)
    (cfg : CognitoConfig) (tokenOutcome : TokenOutcome) (k : AwsConsts)
    (env : AwsEnv) (script : Script) (hm : method ≠ "OPTIONS") :
    (∀ g, (getCognitoAccessToken cfg tokenOutcome).result = .ok g →
      ∀ pid, projectId = some pid →
      ∀ d le ep,
        (sendToAwsEndpoint k env (some g) script).result = .ok (.failure d le ep) →
        extractAndSendGCPInfo method projectId cfg tokenOutcome k env script =
          ⟨200, some ⟨true, "Data extracted successfully but failed to send to AWS",
            true, false⟩⟩) ∧
    ((extractAndSendGCPInfo method projectId cfg tokenOutcome k env script).status =
        500 →
      projectId = none ∨
      ∃ m, (getCognitoAccessToken cfg tokenOutcome).result = .error m) := by
  constructor
  · intro g hg pid hp d le ep hd
    simp only [extractAndSendGCPInfo]
    rw [if_neg hm, hp]
    simp only [hg, hd]
  · intro h500
    cases hpid : projectId with
    | none => exact Or.inl rfl
    | some pid =>
        cases hcog : (getCognitoAccessToken cfg tokenOutcome).result with
        | error m => exact Or.inr ⟨m, rfl⟩
        | ok g =>
            exfalso
            obtain ⟨r, hr⟩ :=
              send_result_ok k env g script (getCognito_ok_token_ne cfg tokenOutcome g hcog)
            cases r with
            | success s st aep rt =>
                have hh : extractAndSendGCPInfo method projectId cfg tokenOutcome
                    k env script =
                    ⟨200, some ⟨true, "Data extracted and sent successfully",
                      false, false⟩⟩ := by
                  simp only [extractAndSendGCPInfo]
                  rw [if_neg hm, hpid]
                  simp only [hcog, hr]
                rw [hh] at h500
                simp at h500
            | failure d le aep =>
                have hh : extractAndSendGCPInfo method projectId cfg tokenOutcome
                    k env script =
                    ⟨200, some ⟨true,
                      "Data extracted successfully but failed to send to AWS",
                      true, false⟩⟩ := by
                  simp only [extractAndSendGCPInfo]
                  rw [if_neg hm, hpid]
                  simp only [hcog, hr]
                rw [hh] at h500
                simp at h500

/-- Witness for `claim_C3_handler` at the run of `claim_C3_counterexample`
and at its 500-implication for that run. -/
theorem claim_C3_witness :
    extractAndSendGCPInfo "POST" (some "proj") ⟨"https://t", "cid", "", "p@ss"⟩
        (.ok (some ⟨some "abc", some "Bearer", none, none⟩))
        ⟨"https://h.example", "/dev/run-assessment"⟩ ⟨"", "", ""⟩
        ⟨[.res 500 "ISE"], .err ⟨"x", none, ""⟩⟩ =
      ⟨200, some ⟨true, "Data extracted successfully but failed to send to AWS",
        true, false⟩⟩ :=
  (claim_C3_handler "POST" (some "proj") ⟨"https://t", "cid", "", "p@ss"⟩
      (.ok (some ⟨some "abc", some "Bearer", none, none⟩))
      ⟨"https://h.example", "/dev/run-assessment"⟩ ⟨"", "", ""⟩
      ⟨[.res 500 "ISE"], .err ⟨"x", none, ""⟩⟩ (by decide)).1
    ⟨"abc", "Bearer", none, none⟩ (by decide) "proj" rfl
    ⟨"Request failed with status code 500",
      "https://h.example/dev/run-assessment", some 500, "ISE", true, "abc..."⟩
    ⟨"Request failed with status code 500", some 500, "ISE"⟩
    "https://h.example/dev/run-assessment" (by decide)

/-- Instantiation of `claim_C5_no_constant_realizes_split` at the
spec-modelled default path `/dev/run-assessment` as the constant value. -/
theorem claim_C5_witness :
    resolveAwsEndpoint ⟨"https://h.example/already/path", "/dev/run-assessment"⟩
        ⟨"", "", ""⟩ ≠ "https://h.example/already/path" ∨
    resolveAwsEndpoint ⟨"https://h.example", "/dev/run-assessment"⟩ ⟨"", "", ""⟩ ≠
      "https://h.example/dev/run-assessment" :=
  claim_C5_no_constant_realizes_split "/dev/run-assessment"
